import Mathlib

/-!
Verification development for the lokaflow pipeline sources:
  packages/lokallm/src/data/generate.py   (dataset collector)
  packages/lokallm/src/train/lora.py      (QLoRA adapter trainer)
  packages/lokallm/src/export/gguf.py     (GGUF exporter, mock)

Shallow embedding conventions:
  * JSON numbers carried through the collector (complexity scores) are never
    used arithmetically by the code — only read with a default and written
    back — so they are modelled as rationals (decimal literals).
  * Network effects are modelled by an explicit per-call outcome: the whole
    body of generate_sample sits in one `try`, so any transport error,
    timeout, non-2xx status (raise_for_status) or malformed JSON body is one
    caught exception, modelled as `CallOutcome.failure` with its message.
  * Prints are modelled as lists of strings where a claim mentions them.
-/

namespace LokaFlow

/-- A parsed routing-service JSON response body, as read by generate.py:
the three fields are each optionally absent (`data.get(..., default)`). -/
structure RouteResponse where
  complexityScore : Option Rat
  routingTier : Option String
  reasoning : Option String
deriving DecidableEq

/-- Outcome of the single guarded block in `generate_sample`: either a parsed
response payload, or any exception (transport failure, timeout, non-2xx
status raised by `raise_for_status`, malformed response body) whose message
is `e`. -/
inductive CallOutcome where
  | success (data : RouteResponse)
  | failure (e : String)
deriving DecidableEq

/-- The payload serialized into the record's `target` field by
`json.dumps({"score": ..., "reasoning": ...})`; serialization itself is the
json library, so we keep the payload structured. -/
structure TargetPayload where
  score : Rat
  reasoning : String
deriving DecidableEq

/-- One dataset record as built by `generate_sample` in generate.py. -/
structure LabeledExample where
  instruction : String
  complexity_score : Rat
  tier : String
  target : TargetPayload
deriving DecidableEq

/-- generate.py `generate_sample`: on success builds the record from the
response with defaults `0.0` / `"local"` / `"Unknown"` for absent fields; on
any exception prints a failure line and returns `None`.  First component is
the returned value, second the lines printed. -/
def generate_sample (prompt : String) (outcome : CallOutcome) :
    Option LabeledExample × List String :=
  match outcome with
  | .success data =>
      (some { instruction := prompt
              complexity_score := data.complexityScore.getD 0
              tier := data.routingTier.getD "local"
              target := { score := data.complexityScore.getD 0
                          reasoning := data.reasoning.getD "Unknown" } },
       [])
  | .failure e => (none, [("Failed to score prompt: " ++ e)])

/-- The collection loop of generate.py `main`: each attempted prompt is
paired with the outcome its service call produced.  Returns the accumulated
`results` list and the failure lines printed along the way. -/
def collectRun : List (String × CallOutcome) → List LabeledExample × List String
  | [] => ([], [])
  | (p, c) :: rest =>
      let this := generate_sample p c
      let tail := collectRun rest
      match this.1 with
      | some r => (r :: tail.1, this.2 ++ tail.2)
      | none => (tail.1, this.2 ++ tail.2)

/-- The five hardcoded seed prompts of generate.py `main`. -/
def base_seed_prompts : List String :=
  [ "What is the capital of France?",
    "Write a python script to parse Apache log files and group by status code.",
    "Can you explain the mathematical foundation of continuous diffusion models?",
    "Hello!",
    "Could you review this React code for performance bottlenecks? [code...]" ]

/-- Python `list * n` on an `int`: `n` concatenated copies when `n > 0`,
the empty list when `n <= 0`. -/
def pyListMul (l : List String) (n : Int) : List String :=
  List.flatten (List.replicate n.toNat l)

/-- generate.py `seed_prompts = [...] * (args.samples // 5)`; Python `//` is
floor division, which on `Int` is `Int.fdiv`. -/
def seed_prompts (samples : Int) : List String :=
  pyListMul base_seed_prompts (Int.fdiv samples 5)

/-- Attach to each prompt, in attempt order, the outcome of the service call
made for it (call `i` of the run gets `oracle i`). -/
def attachOutcomes : List String → (Nat → CallOutcome) → List (String × CallOutcome)
  | [], _ => []
  | p :: rest, oracle => (p, oracle 0) :: attachOutcomes rest (fun i => oracle (i + 1))

/-- generate.py `main` for a given `--samples` value and service behavior:
the records written to the output file (the file is always opened with mode
"w" and receives one JSON line per record, so the file's content is exactly
this list). -/
def collectorRecords (samples : Int) (oracle : Nat → CallOutcome) : List LabeledExample :=
  (collectRun (attachOutcomes (seed_prompts samples) oracle)).1

/-! ### Trainer (lora.py) -/

/-- CLI arguments of lora.py `main`. -/
structure TrainArgs where
  dataset : String
  output_dir : String
  base_model : String
  epochs : Int
  batch_size : Int
deriving DecidableEq

/-- The observable steps of lora.py `main`, in the order the source executes
them; external library calls (tokenizer/model loading, peft attachment,
trl training) appear as the events they trigger. -/
inductive TrainEvent where
  | loadTokenizer (base_model : String)
  | configureQuant
  | loadWeights (base_model : String)
  | prepareKbit
  | attachAdapter
  | reportTrainable (n : Nat)
  | loadDataset (path : String)
  | initTrainer
  | trainStart
  | saveAdapter (dir : String)
deriving DecidableEq

/-- One weight matrix of the base model: its module name and its input and
output dimensions (so it holds `dIn * dOut` parameters). -/
structure ModuleDims where
  name : String
  dIn : Nat
  dOut : Nat
deriving DecidableEq

/-- Modelled from the spec: the structure of a base model as the adapter
attachment of §4.2 needs it — a collection of named weight matrices (the
candidates for adapter attachment) plus the parameters of everything else
(embeddings, norms, ...), which §4.2 says stay frozen.  The concrete
parameter counting lives in the external peft library, not in this
repository's sources. -/
structure BaseModel where
  modules : List ModuleDims
  otherParams : Nat
deriving DecidableEq

/-- The LoRA rank hardcoded in lora.py (`r=16`). -/
def lora_r : Nat := 16

/-- The target-module list hardcoded in lora.py. -/
def target_modules : List String :=
  ["q_proj", "k_proj", "v_proj", "o_proj", "gate_proj", "up_proj", "down_proj"]

/-- Modelled from the spec: §4.2 — each target module of shape
`dOut x dIn` receives a trainable low-rank decomposition of rank `r`, i.e.
`r * (dIn + dOut)` trainable parameters; all other weights are frozen, so
the trainable count is the sum over the target modules.  (The computation
itself is peft's `get_peft_model` / `print_trainable_parameters`, outside
this repository.) -/
def trainableParams (m : BaseModel) : Nat :=
  ((m.modules.filter fun md => md.name ∈ target_modules).map
    fun md => lora_r * (md.dIn + md.dOut)).sum

/-- Total parameter count of the base model: every weight matrix plus the
remaining parameters. -/
def totalBaseParams (m : BaseModel) : Nat :=
  (m.modules.map fun md => md.dIn * md.dOut).sum + m.otherParams

/-- lora.py `main` as the ordered sequence of steps it performs.  The source
has no branch on the dataset (and no validation at all): the dataset content
never influences which steps run, and the dataset is only read at step 7,
after the tokenizer and the 4-bit base weights are already loaded. -/
def trainerTrace (args : TrainArgs) (dataset : List LabeledExample) (m : BaseModel) :
    List TrainEvent :=
  let _ := dataset
  [ .loadTokenizer args.base_model,
    .configureQuant,
    .loadWeights args.base_model,
    .prepareKbit,
    .attachAdapter,
    .reportTrainable (trainableParams m),
    .loadDataset args.dataset,
    .initTrainer,
    .trainStart,
    .saveAdapter args.output_dir ]

/-! ### Exporter (gguf.py) -/

/-- CLI arguments of gguf.py `main`. -/
structure ExportArgs where
  adapter : String
  base_model : String
  output : String
deriving DecidableEq

/-- What training actually records inside the adapter directory about its
base model (peft stores the base model identifier in the adapter config). -/
structure AdapterArtifact where
  recordedBaseModel : String
deriving DecidableEq

/-- The effectful steps gguf.py `main` performs on the output path, in
source order: create the parent directory, `open(args.output, "w")` (which
creates the file, truncated to empty, before anything is written),
`f.write("GGUF_MOCK_DATA")`, and close-and-print on exit of the `with`. -/
inductive ExportStep where
  | makeDirs
  | openTruncate
  | writeData
  | closePrint
deriving DecidableEq

def exportSteps : List ExportStep :=
  [.makeDirs, .openTruncate, .writeData, .closePrint]

/-- Effect of one step on the file at the requested output path
(`none` = no file there, `some s` = a file with content `s`). -/
def applyStep (fileAtOutput : Option String) : ExportStep → Option String
  | .makeDirs => fileAtOutput
  | .openTruncate => some ""
  | .writeData => some "GGUF_MOCK_DATA"
  | .closePrint => fileAtOutput

/-- Run the export steps with an induced failure: the run executes the first
`fuel` steps and then stops (a `fuel` at least the number of steps is a
successful run).  Returns the file at the output path afterward. -/
def runSteps (fileAtOutput : Option String) : List ExportStep → Nat → Option String
  | [], _ => fileAtOutput
  | _, 0 => fileAtOutput
  | s :: rest, fuel + 1 => runSteps (applyStep fileAtOutput s) rest fuel

/-- Result of one exporter invocation. -/
structure ExportOutcome where
  fileAtOutput : Option String
  exitCode : Nat
deriving DecidableEq

/-- gguf.py `main` on a clean destination: it reads nothing from the adapter
directory and performs no validation of `--adapter` or `--base_model`
against the artifact (both only appear in log lines); it always runs all
steps and exits 0. -/
def exporterMain (args : ExportArgs) (adapter : AdapterArtifact) : ExportOutcome :=
  let _ := args
  let _ := adapter
  { fileAtOutput := runSteps none exportSteps exportSteps.length
    exitCode := 0 }

/-! ### Concrete instances used by witnesses and counterexamples -/

/-- The routing-service response of the spec's scenario for `"Hello!"`. -/
def demoResponse : RouteResponse :=
  { complexityScore := some (1 / 10), routingTier := some "local",
    reasoning := some "trivial greeting" }

/-- The record the collector builds from `demoResponse`. -/
def demoRecord : LabeledExample :=
  { instruction := "Hello!", complexity_score := 1 / 10, tier := "local",
    target := { score := 1 / 10, reasoning := "trivial greeting" } }

/-- A two-call run: the first call times out, the second succeeds. -/
def demoCalls : List (String × CallOutcome) :=
  [("What is the capital of France?", .failure "timeout"),
   ("Hello!", .success demoResponse)]

/-- Trainer CLI defaults from lora.py. -/
def trainDefaultArgs : TrainArgs :=
  { dataset := "dataset.jsonl", output_dir := "out",
    base_model := "microsoft/Phi-3-mini-4k-instruct", epochs := 3, batch_size := 4 }

/-- A base model with one adapter-target projection and an embedding matrix
(dimensions as in a Phi-3-mini-sized model). -/
def demoBaseModel : BaseModel :=
  { modules := [⟨"q_proj", 3072, 3072⟩, ⟨"embed_tokens", 32064, 3072⟩],
    otherParams := 3072 }

/-! ### Theorems -/

/-- C5: on every successful routing-service response, `generate_sample`
builds the record with `complexity_score` from `complexityScore` (default
`0.0`), `tier` from `routingTier` (default `"local"`), and a target payload
of the same score together with `reasoning` (default `"Unknown"`); absent
fields never produce an error (the result is always `some`), and nothing is
printed. -/
theorem score_prompt_defaults (p : String) (cs : Option Rat) (rt ru : Option String) :
    generate_sample p (.success ⟨cs, rt, ru⟩) =
      (some { instruction := p
              complexity_score := cs.getD 0
              tier := rt.getD "local"
              target := { score := cs.getD 0, reasoning := ru.getD "Unknown" } },
       []) := rfl

/-- C9: every record a successful `generate_sample` call returns has its
target payload's score equal to its top-level `complexity_score`, and its
`instruction` equal to the input prompt verbatim. -/
theorem record_fields_consistent (p : String) (c : CallOutcome) (r : LabeledExample)
    (h : (generate_sample p c).1 = some r) :
    r.target.score = r.complexity_score ∧ r.instruction = p := by
  cases c with
  | success data =>
      simp only [generate_sample, Option.some.injEq] at h
      subst h
      exact ⟨rfl, rfl⟩
  | failure e =>
      simp [generate_sample] at h

/-- Witness for C9 at the spec's `"Hello!"` scenario. -/
theorem record_fields_consistent_witness :
    demoRecord.target.score = demoRecord.complexity_score ∧
    demoRecord.instruction = "Hello!" :=
  record_fields_consistent "Hello!" (.success demoResponse) demoRecord rfl

/-- C4: a prompt whose service call fails (transport failure, timeout,
non-2xx, malformed body) is dropped and only it: the collected records are
exactly those of the surrounding calls, the failure is reported as a printed
line (never raised — `collectRun` is total), and every remaining prompt is
still collected. -/
theorem collector_drops_only_failed (pre : List (String × CallOutcome)) (p e : String)
    (post : List (String × CallOutcome)) :
    (collectRun (pre ++ (p, .failure e) :: post)).1 =
      (collectRun pre).1 ++ (collectRun post).1 ∧
    (collectRun (pre ++ (p, .failure e) :: post)).2 =
      (collectRun pre).2 ++ ("Failed to score prompt: " ++ e) :: (collectRun post).2 := by
  induction pre with
  | nil => simp [collectRun, generate_sample]
  | cons pc rest ih =>
      obtain ⟨p', c'⟩ := pc
      cases c' with
      | success data =>
          simp only [List.cons_append, collectRun, generate_sample]
          exact ⟨by simp [ih.1], by simp [ih.2]⟩
      | failure e' =>
          simp only [List.cons_append, collectRun, generate_sample]
          exact ⟨by simp [ih.1], by simp [ih.2]⟩

/-- C10: the bytes the exporter writes at the output path are the constant
mock content, identical across any two invocations whatever `--adapter`
path and `--base_model` identifier are supplied. -/
theorem export_bytes_independent (a₁ b₁ a₂ b₂ out : String)
    (ad₁ ad₂ : AdapterArtifact) :
    (exporterMain ⟨a₁, b₁, out⟩ ad₁).fileAtOutput =
      (exporterMain ⟨a₂, b₂, out⟩ ad₂).fileAtOutput ∧
    (exporterMain ⟨a₁, b₁, out⟩ ad₁).fileAtOutput = some "GGUF_MOCK_DATA" :=
  ⟨rfl, rfl⟩

/-- C6: the collected dataset never has more records than there were
prompts, and each record at output position `j` was produced by the call at
some input position `i ≥ j` — the output is an order-preserving subsequence
of the successfully scored inputs. -/
theorem collect_subsequence (calls : List (String × CallOutcome)) :
    (collectRun calls).1.length ≤ calls.length ∧
    ∀ (j : Nat) (r : LabeledExample), ((collectRun calls).1)[j]? = some r →
      ∃ i : Nat, j ≤ i ∧ ∃ pc : String × CallOutcome, calls[i]? = some pc ∧
        (generate_sample pc.1 pc.2).1 = some r := by
  induction calls with
  | nil =>
      refine ⟨Nat.le_refl 0, fun j r h => ?_⟩
      simp [collectRun] at h
  | cons pc rest ih =>
      obtain ⟨p, c⟩ := pc
      cases c with
      | success data =>
          constructor
          · simpa [collectRun, generate_sample] using Nat.succ_le_succ ih.1
          · intro j r h
            simp only [collectRun, generate_sample] at h
            cases j with
            | zero =>
                refine ⟨0, Nat.le_refl 0, (p, .success data), by simp, ?_⟩
                simp only [List.getElem?_cons_zero, Option.some.injEq] at h
                simp [generate_sample, h]
            | succ k =>
                simp only [List.getElem?_cons_succ] at h
                obtain ⟨i, hki, pc', hpc', hg⟩ := ih.2 k r h
                exact ⟨i + 1, Nat.succ_le_succ hki, pc', by simpa using hpc', hg⟩
      | failure e =>
          constructor
          · simpa [collectRun, generate_sample] using Nat.le_succ_of_le ih.1
          · intro j r h
            simp only [collectRun, generate_sample] at h
            obtain ⟨i, hji, pc', hpc', hg⟩ := ih.2 j r h
            exact ⟨i + 1, Nat.le_succ_of_le hji, pc', by simpa using hpc', hg⟩

/-- Witness for C6 on `demoCalls` (first call fails, second succeeds): one
record comes out of two calls, and record 0 stems from call 1 ≥ 0. -/
theorem collect_subsequence_witness :
    (collectRun demoCalls).1.length ≤ demoCalls.length ∧
    ∃ i : Nat, 0 ≤ i ∧ ∃ pc : String × CallOutcome, demoCalls[i]? = some pc ∧
      (generate_sample pc.1 pc.2).1 = some demoRecord :=
  ⟨(collect_subsequence demoCalls).1,
   (collect_subsequence demoCalls).2 0 demoRecord rfl⟩

/-- C2 (amended): the trainer performs no empty-dataset validation — its
step sequence is the same whatever the dataset holds; base-model weights
are loaded at step 3 and the dataset only read at step 7, so on an empty
dataset the weight-load attempt is observable. -/
theorem trainer_no_empty_dataset_check (args : TrainArgs) (ds : List LabeledExample)
    (m : BaseModel) :
    trainerTrace args ds m = trainerTrace args [] m ∧
    (trainerTrace args ds m)[2]? = some (.loadWeights args.base_model) ∧
    (trainerTrace args ds m)[6]? = some (.loadDataset args.dataset) :=
  ⟨rfl, rfl, rfl⟩

/-- C2 counterexample: a training run with the default arguments and an
empty dataset still performs a base-model weight load — the load attempt is
observable, refuting "no load attempt is observable". -/
theorem trainer_empty_dataset_counterexample :
    TrainEvent.loadWeights "microsoft/Phi-3-mini-4k-instruct" ∈
      trainerTrace trainDefaultArgs [] demoBaseModel := by decide

/-- C1 (amended): the exporter never validates the adapter's recorded
base-model identity against `--base_model`: even on a mismatch it writes the
mock artifact at the output path and exits 0. -/
theorem export_ignores_identity_mismatch (args : ExportArgs) (adapter : AdapterArtifact)
    (_h : adapter.recordedBaseModel ≠ args.base_model) :
    (exporterMain args adapter).fileAtOutput = some "GGUF_MOCK_DATA" ∧
    (exporterMain args adapter).exitCode = 0 :=
  ⟨rfl, rfl⟩

/-- Witness for the amended C1 at a concrete mismatched pair. -/
theorem export_ignores_identity_mismatch_witness :
    (exporterMain ⟨"adapters/phi3", "some/other-base", "out/model.gguf"⟩
        ⟨"microsoft/Phi-3-mini-4k-instruct"⟩).fileAtOutput = some "GGUF_MOCK_DATA" ∧
    (exporterMain ⟨"adapters/phi3", "some/other-base", "out/model.gguf"⟩
        ⟨"microsoft/Phi-3-mini-4k-instruct"⟩).exitCode = 0 :=
  export_ignores_identity_mismatch
    ⟨"adapters/phi3", "some/other-base", "out/model.gguf"⟩
    ⟨"microsoft/Phi-3-mini-4k-instruct"⟩ (by decide)

/-- C1 counterexample: with the adapter's recorded base model differing from
the supplied `--base_model`, the export still writes a file at the requested
path (and succeeds), refuting "fails validation and writes no output
file". -/
theorem export_mismatch_counterexample :
    "microsoft/Phi-3-mini-4k-instruct" ≠ "some/other-base" ∧
    ¬ ((exporterMain ⟨"adapters/phi3", "some/other-base", "out/model.gguf"⟩
        ⟨"microsoft/Phi-3-mini-4k-instruct"⟩).fileAtOutput = none) ∧
    (exporterMain ⟨"adapters/phi3", "some/other-base", "out/model.gguf"⟩
        ⟨"microsoft/Phi-3-mini-4k-instruct"⟩).exitCode = 0 := by decide

/-- C3 (amended): `open(args.output, "w")` creates (or truncates) the file
before anything is written, and there is no temporary-file-and-rename step:
any run that fails once the open has happened (at least 2 steps completed)
leaves a file — possibly empty — at the requested path, while a run
completing all steps leaves exactly the mock artifact there. -/
theorem export_leaves_file_after_open (k : Nat) (h : 2 ≤ k) :
    (runSteps none exportSteps k).isSome = true ∧
    runSteps none exportSteps exportSteps.length = some "GGUF_MOCK_DATA" := by
  refine ⟨?_, rfl⟩
  obtain ⟨m, rfl⟩ : ∃ m, k = m + 2 := ⟨k - 2, by omega⟩
  cases m with
  | zero => rfl
  | succ m' =>
      cases m' with
      | zero => rfl
      | succ m'' => simp [exportSteps, runSteps, applyStep]

/-- Witness for the amended C3: the run failing right after the open. -/
theorem export_leaves_file_after_open_witness :
    (runSteps none exportSteps 2).isSome = true ∧
    runSteps none exportSteps exportSteps.length = some "GGUF_MOCK_DATA" :=
  export_leaves_file_after_open 2 (by decide)

/-- C3 counterexample: a run induced to fail mid-write — after the open
(2 steps done) but before the write completes — leaves an (empty) file at
the requested output path, refuting "no file exists at the requested output
path afterward". -/
theorem export_midwrite_counterexample :
    runSteps none exportSteps 2 = some "" ∧
    ¬ (runSteps none exportSteps 2 = none) := by decide

/-- Summing a strictly smaller summand over a nonempty list gives a strictly
smaller sum. -/
theorem sum_map_lt_sum_map {α : Type} (f g : α → Nat) :
    ∀ l : List α, l ≠ [] → (∀ x ∈ l, f x < g x) →
      (l.map f).sum < (l.map g).sum
  | [], hne, _ => absurd rfl hne
  | [x], _, h => by simpa using h x (by simp)
  | x :: y :: ys, _, h => by
      have h1 := h x (by simp)
      have h2 := sum_map_lt_sum_map f g (y :: ys) (by simp)
        (fun z hz => h z (List.mem_cons_of_mem x hz))
      simp only [List.map_cons, List.sum_cons] at h2 ⊢
      omega

/-- Dropping elements (filtering) never increases a sum of naturals. -/
theorem sum_map_filter_le {α : Type} (p : α → Bool) (g : α → Nat) :
    ∀ l : List α, ((l.filter p).map g).sum ≤ (l.map g).sum
  | [] => Nat.le_refl 0
  | x :: xs => by
      have ih := sum_map_filter_le p g xs
      cases hx : p x with
      | true => simp only [List.filter_cons, hx, if_true, List.map_cons, List.sum_cons]; omega
      | false => simp only [List.filter_cons, hx, Bool.false_eq_true, if_false,
          List.map_cons, List.sum_cons]; omega

/-- C7: whenever the base model has at least one adapter-target module and
each target matrix is large enough that its rank-16 decomposition is smaller
than the matrix itself (true of every real base model this trainer targets),
the trainable-parameter count after `get_peft_model` is strictly below the
base model's total parameter count; and the trainer reports exactly this
count (step 6) strictly before the training loop starts (step 9). -/
theorem lora_param_efficiency (args : TrainArgs) (ds : List LabeledExample)
    (m : BaseModel)
    (hdims : ∀ md ∈ m.modules, md.name ∈ target_modules →
      lora_r * (md.dIn + md.dOut) < md.dIn * md.dOut)
    (htgt : ∃ md ∈ m.modules, md.name ∈ target_modules) :
    trainableParams m < totalBaseParams m ∧
    ∃ i j : Nat, i < j ∧
      (trainerTrace args ds m)[i]? = some (.reportTrainable (trainableParams m)) ∧
      (trainerTrace args ds m)[j]? = some .trainStart := by
  refine ⟨?_, 5, 8, by omega, by simp [trainerTrace], by simp [trainerTrace]⟩
  have hne : m.modules.filter (fun md => md.name ∈ target_modules) ≠ [] := by
    obtain ⟨md, hmem, htm⟩ := htgt
    intro hnil
    have hmf : md ∈ m.modules.filter (fun md => md.name ∈ target_modules) := by
      simp [List.mem_filter, hmem, htm]
    rw [hnil] at hmf
    simp at hmf
  have h1 : trainableParams m <
      ((m.modules.filter fun md => md.name ∈ target_modules).map
        fun md => md.dIn * md.dOut).sum := by
    refine sum_map_lt_sum_map _ _ _ hne (fun md hmd => ?_)
    have hm := List.mem_filter.mp hmd
    exact hdims md hm.1 (by simpa using hm.2)
  have h2 : ((m.modules.filter fun md => md.name ∈ target_modules).map
        fun md => md.dIn * md.dOut).sum ≤
      (m.modules.map fun md => md.dIn * md.dOut).sum :=
    sum_map_filter_le _ _ m.modules
  unfold totalBaseParams
  omega

/-- Witness for C7: the default arguments, an empty dataset and a Phi-3-mini
sized base model with one target projection. -/
theorem lora_param_efficiency_witness :
    trainableParams demoBaseModel < totalBaseParams demoBaseModel ∧
    ∃ i j : Nat, i < j ∧
      (trainerTrace trainDefaultArgs [] demoBaseModel)[i]? =
        some (.reportTrainable (trainableParams demoBaseModel)) ∧
      (trainerTrace trainDefaultArgs [] demoBaseModel)[j]? = some .trainStart :=
  lora_param_efficiency trainDefaultArgs [] demoBaseModel (by decide) (by decide)

/-- Python `list * n` yields `max n 0` copies, so `n.toNat * length`
elements. -/
theorem length_pyListMul (l : List String) (n : Int) :
    (pyListMul l n).length = n.toNat * l.length := by
  simp [pyListMul, List.length_flatten, List.map_replicate, List.sum_replicate,
    smul_eq_mul]

/-- C8 (amended): for every nonnegative `--samples` the collector attempts
exactly `5 * (samples // 5)` prompts (so the attempted count equals the
requested count exactly when 5 divides it); for every `samples < 5` —
including every negative value, where Python's `list * n` yields the empty
list — it attempts zero prompts and writes an empty dataset file. -/
theorem seed_prompt_count (samples : Int) :
    (0 ≤ samples →
      ((seed_prompts samples).length : Int) = 5 * Int.fdiv samples 5) ∧
    (samples < 5 → seed_prompts samples = [] ∧
      ∀ oracle : Nat → CallOutcome, collectorRecords samples oracle = []) ∧
    (((seed_prompts samples).length : Int) = samples ↔
      0 ≤ samples ∧ (5 : Int) ∣ samples) := by
  have hfd : Int.fdiv samples 5 = samples / 5 := Int.fdiv_eq_ediv _ (by omega)
  have hlen : (seed_prompts samples).length = (Int.fdiv samples 5).toNat * 5 := by
    simpa using length_pyListMul base_seed_prompts (Int.fdiv samples 5)
  refine ⟨?_, ?_, ?_⟩
  · intro hs
    rw [hlen, hfd]
    omega
  · intro hs
    have h0 : (Int.fdiv samples 5).toNat = 0 := by rw [hfd]; omega
    refine ⟨by simp [seed_prompts, pyListMul, h0], fun oracle => ?_⟩
    simp [collectorRecords, seed_prompts, pyListMul, h0, attachOutcomes, collectRun]
  · rw [hlen, hfd]
    omega

/-- Witness for the amended C8: `--samples 7` attempts `5 = 5 * (7 // 5)`
prompts; `--samples 3` attempts none and produces an empty dataset;
`--samples 10` attempts exactly the requested count. -/
theorem seed_prompt_count_witness :
    ((seed_prompts 7).length : Int) = 5 * Int.fdiv 7 5 ∧
    (seed_prompts 3 = [] ∧
      ∀ oracle : Nat → CallOutcome, collectorRecords 3 oracle = []) ∧
    (((seed_prompts 10).length : Int) = 10 ↔ 0 ≤ (10 : Int) ∧ (5 : Int) ∣ 10) :=
  ⟨(seed_prompt_count 7).1 (by decide),
   (seed_prompt_count 3).2.1 (by decide),
   (seed_prompt_count 10).2.2⟩

/-- C8 counterexample: at `--samples -5` the collector attempts zero
prompts, but `5 * floor(-5 / 5) = -5`, so "attempts exactly
`5 * floor(samples / 5)` prompts" fails for this integer value. -/
theorem seed_prompt_count_counterexample :
    ((seed_prompts (-5)).length : Int) = 0 ∧
    5 * Int.fdiv (-5) 5 = -5 ∧
    ¬ (((seed_prompts (-5)).length : Int) = 5 * Int.fdiv (-5) 5) := by decide

end LokaFlow
